import Mathlib

/-!
Verification of the docling worker core (services/docling_worker/convert.py and
services/docling_worker/gates.py) against its natural-language specification.

The Python source is shallowly embedded: pure functions become Lean functions,
the process-global state (converter cache, last-job proof slot) becomes explicit
state passing, Python floats become exact rationals (the spec mandates exact
numeric comparison for gate thresholds), fallible code returns Option/Except,
and the truly external effects (torch/CUDA probing, the docling capability
probe, pypdfium2 page sampling, the opaque conversion call) are parameters of
the embedded functions, mirroring exactly how their results flow through the
source.
-/

/-- Embeds Python str.lower() as used by the worker (ASCII case folding of every
character; the config values involved are ASCII). -/
def py_lower (s : String) : String := ⟨s.data.map Char.toLower⟩

/-- Embeds Python str.strip(): removes leading and trailing whitespace. -/
def py_strip (s : String) : String :=
  ⟨((s.data.dropWhile Char.isWhitespace).reverse.dropWhile Char.isWhitespace).reverse⟩

/-- Embeds Python str.endswith. -/
def py_endswith (s suffix : String) : Bool := List.isSuffixOf suffix.data s.data

/-- Embeds Python bool formatting inside an f-string: True / False. -/
def py_bool_str (b : Bool) : String := if b then "True" else "False"

/-- Embeds Python Optional[bool] formatting inside an f-string: None / True / False. -/
def py_opt_bool_str : Option Bool → String
  | none => "None"
  | some b => py_bool_str b

/-! ## Gate evaluator (services/docling_worker/gates.py) -/

/-- One entry of config["gates"]: the dict keys read by evaluate_gates, with the
defaults the source applies (`gate.get("enabled", False)`, `float(gate.get("threshold", 0))`,
`gate.get("message", "")`). `code`, `metric`, `op` and `severity` are read with
plain .get; the worker configs carry strings there, which the embedding fixes as
the field types. Numeric values are embedded as exact rationals. -/
structure GateRule where
  code : String
  enabled : Bool
  metric : String
  op : String
  threshold : ℚ
  severity : String
  message : String
deriving Repr, DecidableEq

/-- One entry of the `failed` list built by evaluate_gates. -/
structure FailedGate where
  code : String
  message : String
  actual : ℚ
  expectedOp : String
  expected : ℚ
deriving Repr, DecidableEq

/-- One entry of the `evaluated` list built by evaluate_gates. -/
structure EvaluatedGate where
  code : String
  severity : String
  metric : String
  op : String
  threshold : ℚ
  actual : ℚ
  passed : Bool
  message : String
deriving Repr, DecidableEq

/-- The metrics dict: association list from metric name to numeric value. -/
def Metrics : Type := List (String × ℚ)

/-- Embeds `float(metrics.get(metric_name, 0))`: lookup with default 0. -/
def get_metric : List (String × ℚ) → String → ℚ
  | [], _ => 0
  | (k, v) :: rest, key => if k = key then v else get_metric rest key

/-- Embeds gates.py `_compare`. The ValueError raised on an unsupported operator
is embedded as `none`. -/
def compare_op (actual : ℚ) (op : String) (expected : ℚ) : Option Bool :=
  if op = ">" then some (decide (actual > expected))
  else if op = ">=" then some (decide (actual ≥ expected))
  else if op = "<" then some (decide (actual < expected))
  else if op = "<=" then some (decide (actual ≤ expected))
  else if op = "==" then some (decide (actual = expected))
  else if op = "!=" then some (decide (actual ≠ expected))
  else none

/-- The evaluated-list entry evaluate_gates appends for a gate. -/
def evaluated_entry (g : GateRule) (actual : ℚ) (passed : Bool) : EvaluatedGate :=
  ⟨g.code, g.severity, g.metric, g.op, g.threshold, actual, passed, g.message⟩

/-- The failed-list entry evaluate_gates appends for a failing FAIL gate. -/
def failed_entry (g : GateRule) (actual : ℚ) : FailedGate :=
  ⟨g.code, g.message, actual, g.op, g.threshold⟩

/-- The loop body of gates.py evaluate_gates, folded over config["gates"]:
skips disabled gates; for each enabled gate computes actual, compares, appends
to `evaluated`, and appends to `failed` when the comparison is false and the
severity is FAIL. A ValueError from `_compare` aborts the whole evaluation
(embedded as `Except.error` carrying the ValueError message). -/
def evaluate_gates_aux (metrics : List (String × ℚ)) :
    List GateRule → Except String (List FailedGate × List EvaluatedGate)
  | [] => .ok ([], [])
  | g :: rest =>
    if g.enabled then
      match compare_op (get_metric metrics g.metric) g.op g.threshold with
      | none => .error ("Unsupported gate op: " ++ g.op)
      | some passed =>
        match evaluate_gates_aux metrics rest with
        | .error e => .error e
        | .ok (failed, evaluated) =>
          .ok ((if passed = false ∧ g.severity = "FAIL"
                then [failed_entry g (get_metric metrics g.metric)] else [])
                 ++ failed,
               evaluated_entry g (get_metric metrics g.metric) passed :: evaluated)
    else evaluate_gates_aux metrics rest

/-- Embeds gates.py evaluate_gates: returns (len(failed) == 0, failed, evaluated),
or the ValueError text when an enabled gate has an unsupported operator. -/
def evaluate_gates (metrics : List (String × ℚ)) (gates : List GateRule) :
    Except String (Bool × List FailedGate × List EvaluatedGate) :=
  match evaluate_gates_aux metrics gates with
  | .error e => .error e
  | .ok (failed, evaluated) => .ok (failed.isEmpty, failed, evaluated)

/-! ## Settings resolver (convert.py: device, profile and capability fallback) -/

/-- Generic embedding of Python dict.get on a string-keyed dict. -/
def py_dict_get {α : Type} : List (String × α) → String → Option α
  | [], _ => none
  | (k, v) :: rest, key => if k = key then some v else py_dict_get rest key

/-- Embeds the Python truthiness test on an optional string: None and "" are falsy. -/
def falsy_str : Option String → Bool
  | none => true
  | some s => s = ""

/-- Embeds the Python `a or b` idiom on optional strings. -/
def py_or_str (a b : Option String) : Option String :=
  match a with
  | some s => if s = "" then b else some s
  | none => b

/-- Result of convert.py get_torch_info(): torch availability, version, CUDA
version and CUDA availability. The actual probe is an external effect, so the
embedding takes its result as a parameter. -/
structure TorchInfo where
  torch_available : Bool
  torch_version : Option String
  torch_cuda_version : Option String
  cuda_available : Bool
deriving Repr, DecidableEq

/-- convert.py dataclass AcceleratorSelection. -/
structure AcceleratorSelection where
  requested_device : String
  effective_device : String
  cuda_available : Bool
  reason : Option String
  torch_version : Option String
  torch_cuda_version : Option String
deriving Repr, DecidableEq

/-- The snapshot built by convert.py get_docling_capabilities(). The probe
inspects the installed docling package (an external effect), so the embedding
takes the snapshot as a parameter. The prober only ever appends backend names
from its fixed backend_checks list, i.e. pdfBackends is always a subset of
[dlparse_v1, dlparse_v2, dlparse_v4, pypdfium2], and tableModes is the list of
lowercased TableFormerMode member names (fast / accurate). -/
structure DoclingCapabilities where
  doclingVersion : String
  pdfBackends : List String
  tableModes : List String
  tableStructureOptionsFields : List String
  cudaAvailable : Option Bool
  gpuName : Option String
  torchVersion : Option String
  torchCudaVersion : Option String
deriving Repr, DecidableEq

/-- The preflight.pdfText section of config/docling.json, with the defaults
run_pdf_preflight applies on read (enabled True, samplePages 0, minTextChars 0,
minTextCharsPerPageAvg 0). -/
structure PreflightCfg where
  enabled : Bool
  samplePages : Int
  minTextChars : Int
  minTextCharsPerPageAvg : ℚ
deriving Repr, DecidableEq

/-- One profile entry of config/docling.json, with the dict keys the resolver
reads. Optional fields model absent keys; boolean and timeout fields carry the
coercions the source applies on read. -/
structure ProfileCfg where
  pdfBackend : Option String
  tableStructureMode : Option String
  doCellMatching : Option Bool
  doOcr : Bool
  doTableStructure : Bool
  documentTimeoutSec : Int
deriving Repr, DecidableEq

/-- config/docling.json as read by the resolver: the profiles dict (in
declaration order), the defaultProfile and legacy profile keys, the
docling.accelerator default device, and the preflight.pdfText section. -/
structure DoclingConfig where
  profiles : List (String × ProfileCfg)
  defaultProfile : Option String
  profileKey : Option String
  acceleratorDefault : Option String
  preflightPdfText : PreflightCfg
deriving Repr, DecidableEq

/-- Embeds convert.py normalize_device: str(value or "").lower().strip(),
kept when in {cpu, cuda}, otherwise "auto". -/
def normalize_device (value : Option String) : String :=
  let normalized := py_strip (py_lower (value.getD ""))
  if normalized = "cpu" ∨ normalized = "cuda" then normalized else "auto"

/-- Embeds convert.py resolve_default_device: the docling.accelerator default
device from config (the dict and plain-string spellings both reduce to the
defaultDevice string), normalized. -/
def resolve_default_device (dcfg : DoclingConfig) : String :=
  normalize_device dcfg.acceleratorDefault

/-- Embeds convert.py resolve_requested_device: a truthy override whose str()
strips to a nonempty string wins, else the config default. -/
def resolve_requested_device (dcfg : DoclingConfig) (device_override : Option String) : String :=
  match device_override with
  | some s => if s ≠ "" ∧ py_strip s ≠ "" then normalize_device (some s)
              else resolve_default_device dcfg
  | none => resolve_default_device dcfg

/-- Embeds convert.py resolve_profile_config. The ValueError on an unknown
profile is embedded as `none`. -/
def resolve_profile_config (dcfg : DoclingConfig) (profile_override : Option String) :
    Option (String × ProfileCfg) :=
  let profiles := dcfg.profiles
  let p0 := py_or_str profile_override (py_or_str dcfg.defaultProfile dcfg.profileKey)
  let p1 := if falsy_str p0 ∧ ¬ profiles.isEmpty then
              match profiles with
              | (k, _) :: _ => some k
              | [] => p0
            else p0
  let profile := if falsy_str p1 then "digital-balanced" else p1.getD "digital-balanced"
  match py_dict_get profiles profile with
  | some profile_cfg => some (profile, profile_cfg)
  | none => none

/-- Embeds convert.py resolve_table_structure_mode: mode.lower().strip(), kept
when in {fast, accurate}, otherwise "fast". -/
def resolve_table_structure_mode (mode : String) : String :=
  let normalized := py_strip (py_lower mode)
  if normalized = "fast" ∨ normalized = "accurate" then normalized else "fast"

/-- Embeds convert.py select_accelerator, with the get_torch_info() probe
result passed in. -/
def select_accelerator (torch : TorchInfo) (requested : String) : AcceleratorSelection :=
  let requested_device := normalize_device (some requested)
  let effective_reason : String × Option String :=
    if requested_device = "cuda" then
      if torch.torch_available ∧ torch.cuda_available then ("cuda", none)
      else ("cpu", some "CUDA_NOT_AVAILABLE")
    else if requested_device = "cpu" then ("cpu", none)
    else (if torch.cuda_available then "cuda" else "cpu", none)
  ⟨requested_device, effective_reason.1, torch.cuda_available, effective_reason.2,
   if torch.torch_available then torch.torch_version else none,
   if torch.torch_available then torch.torch_cuda_version else none⟩

/-- The requested_settings dict built by resolve_docling_settings. -/
structure RequestedSettings where
  profile : String
  pdfBackendRequested : String
  tableModeRequested : String
  doCellMatchingRequested : Option Bool
deriving Repr, DecidableEq

/-- The effective_settings dict built by resolve_docling_settings. -/
structure EffectiveSettings where
  doclingVersion : String
  pdfBackendEffective : String
  tableModeEffective : String
  doCellMatchingEffective : Option Bool
  acceleratorEffective : String
  fallbackReasons : List String
deriving Repr, DecidableEq

/-- convert.py dataclass DoclingSettings. -/
structure DoclingSettings where
  profile : String
  pdf_backend : String
  do_ocr : Bool
  do_table_structure : Bool
  table_structure_mode : String
  document_timeout_sec : Int
  accelerator : AcceleratorSelection
  do_cell_matching : Option Bool
  requested_settings : RequestedSettings
  effective_settings : EffectiveSettings
  fallback_reasons : List String
  capabilities : DoclingCapabilities
deriving Repr, DecidableEq

/-- The ordered preference list the resolver tries when the requested PDF
backend is not available (convert.py line 608). -/
def pdf_backend_fallback_order : List String :=
  ["dlparse_v4", "dlparse_v2", "dlparse_v1", "pypdfium2"]

/-- Embeds convert.py resolve_docling_settings. The capability snapshot and
torch probe results are parameters (the source reads them through
get_docling_capabilities() and select_accelerator -> get_torch_info()). The
ValueError on an unknown profile is embedded as `none`; no other path raises. -/
def resolve_docling_settings (dcfg : DoclingConfig) (caps : DoclingCapabilities)
    (torch : TorchInfo) (profile_override device_override : Option String) :
    Option DoclingSettings :=
  match resolve_profile_config dcfg profile_override with
  | none => none
  | some (profile, profile_cfg) =>
    let requested_device := resolve_requested_device dcfg device_override
    let accelerator := select_accelerator torch requested_device
    let requested_pdf_backend := profile_cfg.pdfBackend.getD "dlparse_v2"
    let requested_table_mode :=
      resolve_table_structure_mode (profile_cfg.tableStructureMode.getD "fast")
    let requested_cell_matching := profile_cfg.doCellMatching
    let requested_settings : RequestedSettings :=
      ⟨profile, requested_pdf_backend, requested_table_mode, requested_cell_matching⟩
    let available_backends := caps.pdfBackends
    let effective_pdf_backend :=
      if ¬ available_backends.isEmpty ∧ requested_pdf_backend ∉ available_backends then
        (pdf_backend_fallback_order.find? (fun b => available_backends.contains b)).getD
          requested_pdf_backend
      else requested_pdf_backend
    let backend_reasons : List String :=
      if ¬ available_backends.isEmpty ∧ requested_pdf_backend ∉ available_backends then
        ["PDF_BACKEND_FALLBACK:" ++ requested_pdf_backend ++ "->" ++ effective_pdf_backend]
      else []
    let available_modes := caps.tableModes
    let effective_table_mode :=
      if ¬ available_modes.isEmpty ∧ requested_table_mode ∉ available_modes then
        (if "fast" ∈ available_modes then "fast" else requested_table_mode)
      else requested_table_mode
    let mode_reasons : List String :=
      if ¬ available_modes.isEmpty ∧ requested_table_mode ∉ available_modes then
        ["TABLE_MODE_FALLBACK:" ++ requested_table_mode ++ "->" ++ effective_table_mode]
      else []
    let supported_fields := caps.tableStructureOptionsFields
    let drop_cell_matching :=
      requested_cell_matching ≠ none ∧ ¬ supported_fields.isEmpty ∧
        "do_cell_matching" ∉ supported_fields
    let effective_cell_matching :=
      if drop_cell_matching then none else requested_cell_matching
    let cell_reasons : List String :=
      if drop_cell_matching then ["DO_CELL_MATCHING_UNSUPPORTED"] else []
    let fallback_reasons := backend_reasons ++ mode_reasons ++ cell_reasons
    let effective_settings : EffectiveSettings :=
      ⟨caps.doclingVersion, effective_pdf_backend, effective_table_mode,
       effective_cell_matching, accelerator.effective_device, fallback_reasons⟩
    some ⟨profile, effective_pdf_backend, profile_cfg.doOcr, profile_cfg.doTableStructure,
          effective_table_mode, profile_cfg.documentTimeoutSec, accelerator,
          effective_cell_matching, requested_settings, effective_settings,
          fallback_reasons, caps⟩

/-! ## Preflight gate (convert.py run_pdf_preflight) -/

/-- convert.py dataclass PreflightResult. Counts are the non-negative integers
the source produces; the average is an exact rational. -/
structure PreflightResult where
  passed : Bool
  sample_pages : Nat
  text_chars : Nat
  text_chars_per_page_avg : ℚ
  error : Option String
deriving Repr, DecidableEq

/-- Outcome of the external page-sampling chain in run_pdf_preflight:
the primary sample_pdf_text call either returns (non-whitespace chars,
pages actually sampled = min(samplePages, page count)), or raises and the
byte-scanning fallback returns an approximate count, or both raise. -/
inductive SampleOutcome where
  | ok (text_chars : Nat) (sampled : Nat)
  | fallback (err : String) (text_chars : Nat)
  | allFailed (err : String)
deriving Repr, DecidableEq

/-- Embeds convert.py run_pdf_preflight, with the external sampling outcome as
a parameter. Disabled preflight or samplePages <= 0 auto-passes with zero
counts; a successful sample passes iff the char total and the per-page average
meet the configured minimums; the fallback path uses samplePages as the page
count; if the fallback also raises, the check auto-passes carrying the error. -/
def run_pdf_preflight (cfg : PreflightCfg) (sample : SampleOutcome) : PreflightResult :=
  if cfg.enabled = false then ⟨true, 0, 0, 0, none⟩
  else if cfg.samplePages ≤ 0 then ⟨true, 0, 0, 0, none⟩
  else
    match sample with
    | .ok text_chars sampled =>
      let avg : ℚ := if 0 < sampled then (text_chars : ℚ) / (sampled : ℚ) else 0
      ⟨decide (cfg.minTextChars ≤ (text_chars : Int)) && decide (cfg.minTextCharsPerPageAvg ≤ avg),
       sampled, text_chars, avg, none⟩
    | .fallback err text_chars =>
      let sampled := cfg.samplePages.toNat
      let avg : ℚ := if 0 < sampled then (text_chars : ℚ) / (sampled : ℚ) else 0
      ⟨decide (cfg.minTextChars ≤ (text_chars : Int)) && decide (cfg.minTextCharsPerPageAvg ≤ avg),
       sampled, text_chars, avg, some err⟩
    | .allFailed err => ⟨true, 0, 0, 0, some err⟩

/-! ## Converter cache (convert.py build_converter_cache_key / get_cached_converter) -/

/-- Embeds convert.py build_converter_cache_key: the pipe-separated
concatenation of every effective settings field, with Python f-string
formatting of the bool, int and Optional[bool] fields. -/
def build_converter_cache_key (settings : DoclingSettings) : String :=
  settings.profile ++ "|" ++ settings.pdf_backend ++ "|" ++ py_bool_str settings.do_ocr ++ "|"
    ++ py_bool_str settings.do_table_structure ++ "|" ++ settings.table_structure_mode ++ "|"
    ++ toString settings.document_timeout_sec ++ "|" ++ settings.accelerator.effective_device
    ++ "|" ++ py_opt_bool_str settings.do_cell_matching

/-- The process-global CONVERTER_CACHE dict and CONVERTER_CACHE_STATS counters,
made explicit. Converter instances are opaque to the core, so the cache stores
a distinct id per built instance (the build counter at build time). -/
structure ConverterCacheState where
  cache : List (String × Nat)
  builds : Nat
  hits : Nat
deriving Repr, DecidableEq

/-- The state after reset_converter_cache, and at process start. -/
def empty_converter_cache : ConverterCacheState := ⟨[], 0, 0⟩

/-- Embeds convert.py get_cached_converter: return the cached instance and
bump hits on a key hit, otherwise build a fresh instance, store it and bump
builds. Returns ((converter, was_cached), next state). -/
def get_cached_converter (settings : DoclingSettings) (st : ConverterCacheState) :
    (Nat × Bool) × ConverterCacheState :=
  match py_dict_get st.cache (build_converter_cache_key settings) with
  | some cached => ((cached, true), ⟨st.cache, st.builds, st.hits + 1⟩)
  | none => ((st.builds, false),
             ⟨(build_converter_cache_key settings, st.builds) :: st.cache, st.builds + 1, st.hits⟩)

/-- Runs a sequence of get_cached_converter calls, collecting each call's
(converter, was_cached) result alongside the final cache state. -/
def run_converter_calls : List DoclingSettings → ConverterCacheState →
    List (Nat × Bool) × ConverterCacheState
  | [], st => ([], st)
  | s :: rest, st =>
    match get_cached_converter s st with
    | (r, st2) =>
      match run_converter_calls rest st2 with
      | (results, stf) => (r :: results, stf)

/-! ## Log tail clamping (convert.py clamp_tail) -/

/-- Total UTF-8 byte size of a character list. -/
def utf8_len (cs : List Char) : Nat := (cs.map Char.utf8Size).sum

/-- Drops characters from the front until the remaining suffix fits in
max_bytes UTF-8 bytes. This is the character-level meaning of the source's
encoded[-max_bytes:] slice followed by decode(..., errors="ignore"): slicing
the byte string either cuts exactly at a character boundary or strands the
trailing continuation bytes of one multi-byte character, which the ignoring
decode drops, so the decoded result is precisely the longest character suffix
whose encoding fits in max_bytes. -/
def drop_to_fit : List Char → Nat → List Char
  | [], _ => []
  | c :: cs, max_bytes =>
    if utf8_len (c :: cs) ≤ max_bytes then c :: cs else drop_to_fit cs max_bytes

/-- Embeds convert.py clamp_tail: empty output for a non-positive kilobyte
budget; the text unchanged when its encoding already fits; otherwise the
UTF-8-safe tail described at drop_to_fit. -/
def clamp_tail (text : String) (max_kb : Int) : String :=
  if max_kb ≤ 0 then ""
  else if utf8_len text.data ≤ max_kb.toNat * 1024 then text
  else ⟨drop_to_fit text.data (max_kb.toNat * 1024)⟩

/-! ## Worker loop protocol (convert.py run_worker_loop, line dispatch) -/

/-- A parsed JSON value, the result of json.loads on one stdin line. -/
inductive JValue where
  | null
  | bool (b : Bool)
  | num (q : ℚ)
  | str (s : String)
  | arr (xs : List JValue)
  | obj (fields : List (String × JValue))

/-- Embeds Python truthiness on a JSON value: None, False, 0, "", [] and {}
are falsy, everything else truthy. -/
def py_truthy : JValue → Bool
  | .null => false
  | .bool b => b
  | .num q => q != 0
  | .str s => !(s = "")
  | .arr xs => !xs.isEmpty
  | .obj fs => !fs.isEmpty

/-- Embeds message.get(key) on a parsed JSON object: None when absent. -/
def jget : List (String × JValue) → String → JValue
  | [], _ => .null
  | (k, v) :: rest, key => if k = key then v else jget rest key

/-- Embeds the Python equality test `value == "literal"` on a JSON value. -/
def jeq_str (v : JValue) (s : String) : Bool :=
  match v with
  | .str t => t = s
  | _ => false

/-- Embeds the Python `a or b` idiom on JSON values. -/
def py_or_j (a b : JValue) : JValue := if py_truthy a then a else b

/-- True iff `str(message.get("jobId") or message.get("docId") or "")` is
nonempty. str() applied to a truthy JSON value is never the empty string, and
the or-chain otherwise ends at "", so the computed job_id is nonempty exactly
when jobId or docId is truthy. -/
def job_id_truthy (fs : List (String × JValue)) : Bool :=
  py_truthy (jget fs "jobId") || py_truthy (jget fs "docId")

/-- The raw argparse.Namespace contents run_worker_loop hands to
run_conversion: field values exactly as read from the message. -/
structure RawJobArgs where
  job_id : JValue
  input : JValue
  doc_id : JValue
  data_dir : JValue
  gates : JValue
  docling_config : JValue
  pymupdf_config : JValue
  engine : JValue
  layout_mode : JValue
  device_override : JValue
  profile : JValue

/-- What one iteration of the run_worker_loop dispatch decides to do with a
line: ignore it, break the loop, answer a capabilities query, or run a job. -/
inductive LoopAction where
  | skip
  | shutdown
  | capabilities (fields : List (String × JValue))
  | job (args : RawJobArgs)

/-- An event the worker loop emits on stdout. At this protocol layer the job
execution is elided: a resultEvt records that run_conversion ran and exactly
one result event was emitted for the accepted job. -/
inductive LoopEvent where
  | capabilitiesEvt (requestId : JValue)
  | resultEvt (args : RawJobArgs)

/-- Embeds the per-line dispatch of run_worker_loop: a blank or unparseable
line (embedded as `none`) is skipped, a non-object value is skipped, then
dispatch on the type field (shutdown / capabilities / job, anything else
skipped), and a job message is skipped unless the computed job id, input,
docId, dataDir and gates values are all truthy. -/
def process_line : Option JValue → LoopAction
  | none => .skip
  | some (.obj fs) =>
    if jeq_str (jget fs "type") "shutdown" then .shutdown
    else if jeq_str (jget fs "type") "capabilities" then .capabilities fs
    else if jeq_str (jget fs "type") "job" = false then .skip
    else if (job_id_truthy fs && py_truthy (jget fs "input") && py_truthy (jget fs "docId")
             && py_truthy (jget fs "dataDir") && py_truthy (jget fs "gates")) = false then .skip
    else .job ⟨py_or_j (jget fs "jobId") (py_or_j (jget fs "docId") (.str "")),
               jget fs "input", jget fs "docId", jget fs "dataDir", jget fs "gates",
               jget fs "doclingConfig", jget fs "pymupdfConfig", jget fs "engine",
               jget fs "layoutMode", jget fs "deviceOverride", jget fs "profile"⟩
  | some _ => .skip

/-- Embeds the stdin loop of run_worker_loop over a list of already-parsed
lines (`none` stands for a blank or non-JSON line): skipped lines emit nothing
and the loop moves on, shutdown breaks, capabilities and accepted jobs emit
their events. -/
def run_loop : List (Option JValue) → List LoopEvent
  | [] => []
  | line :: rest =>
    match process_line line with
    | .skip => run_loop rest
    | .shutdown => []
    | .capabilities fs => .capabilitiesEvt (jget fs "requestId") :: run_loop rest
    | .job args => .resultEvt args :: run_loop rest

/-! ## Conversion orchestrator (convert.py run_conversion, docling branch) -/

/-- Embeds convert.py normalize_engine: str(value or "docling").strip().lower(),
kept when in {docling, pymupdf4llm, pymupdf_text}, otherwise "docling". -/
def normalize_engine (value : Option String) : String :=
  let raw := match value with
             | none => "docling"
             | some v => if v = "" then "docling" else v
  let normalized := py_lower (py_strip raw)
  if normalized = "docling" ∨ normalized = "pymupdf4llm" ∨ normalized = "pymupdf_text" then
    normalized
  else "docling"

/-- The gate config (quality-gates.json) fields run_conversion reads: the gates
list, limits.maxPages (default 0) and limits.stderrTailKb. -/
structure GatesConfig where
  gates : List GateRule
  maxPages : Int
  stderrTailKb : Int
deriving Repr, DecidableEq

/-- The job arguments run_conversion consumes (CLI flags or job-message
fields), typed as the optional strings they carry. -/
structure JobMsgArgs where
  input : String
  doc_id : String
  data_dir : String
  engine : Option String
  layout_mode : Option String
  device_override : Option String
  profile : Option String
deriving Repr, DecidableEq

/-- The LAST_JOB_PROOF slot contents written by record_docling_proof. -/
structure JobProof where
  docId : String
  requested : RequestedSettings
  effective : EffectiveSettings
  fallbackReasons : List String
deriving Repr, DecidableEq

/-- Outcome of the opaque conversion/export/metrics phase inside
run_conversion's try block: either some step raised (with the exception text)
or conversion succeeded and compute_metrics produced the given metrics. -/
inductive DoclingOutcome where
  | raised (err : String)
  | converted (metrics : List (String × ℚ))
deriving Repr

/-- Projection of one run_conversion docling-branch execution: the returned
exit code, the processing/failure/log fields of the meta record as finally
written, whether write_json on the meta record ran before returning, whether
output artifacts were written, and the LAST_JOB_PROOF value recorded. -/
structure ConvRun where
  exit_code : Int
  status : String
  stage : String
  failure : Option (String × String)
  stderr_tail : String
  gates_passed : Option Bool
  meta_written : Bool
  outputs_written : Bool
  proof : Option JobProof
deriving Repr, DecidableEq

/-- Embeds the docling branch of convert.py run_conversion. External effects
are parameters: `probable_pdf` is is_probable_pdf(args.input), `sample` the
page-sampling outcome, `outcome` what the opaque convert/export/metrics phase
did. A `none` result embeds the fatal ValueError of an unknown profile, which
run_conversion does not catch (it is raised before the try block). A ValueError
from evaluate_gates is raised inside the try block and is therefore caught by
the generic handler, like any conversion exception. -/
def run_conversion_docling (config : GatesConfig) (dcfg : DoclingConfig)
    (caps : DoclingCapabilities) (torch : TorchInfo) (args : JobMsgArgs)
    (probable_pdf : Bool) (sample : SampleOutcome) (outcome : DoclingOutcome) :
    Option ConvRun :=
  match resolve_docling_settings dcfg caps torch args.profile args.device_override with
  | none => none
  | some settings =>
    let proof : JobProof := ⟨args.doc_id, settings.requested_settings,
                             settings.effective_settings, settings.fallback_reasons⟩
    let is_pdf := py_endswith (py_lower args.input) ".pdf" && probable_pdf
    let preflight := run_pdf_preflight dcfg.preflightPdfText sample
    if is_pdf && !preflight.passed then
      some ⟨2, "FAILED", "PREFLIGHT",
            some ("NO_TEXT_LAYER",
                  "PDF appears scan-like; OCR is disabled by design; document rejected fast."),
            "", some false, true, false, some proof⟩
    else
      match outcome with
      | .raised err =>
        some ⟨1, "FAILED", "FAILED", some ("WORKER_EXCEPTION", err),
              clamp_tail err config.stderrTailKb, none, true, false, some proof⟩
      | .converted metrics =>
        match evaluate_gates metrics config.gates with
        | .error e =>
          some ⟨1, "FAILED", "FAILED", some ("WORKER_EXCEPTION", e),
                clamp_tail e config.stderrTailKb, none, true, false, some proof⟩
        | .ok (passed0, _, _) =>
          let pages := get_metric metrics "pages"
          let over := (config.maxPages != 0) && decide ((config.maxPages : ℚ) < pages)
          let gates_passed := passed0 && !over
          some ⟨0, if gates_passed then "SUCCESS" else "FAILED",
                if gates_passed then "DONE" else "FAILED", none, "",
                some gates_passed, true, gates_passed, some proof⟩

/-- The external world one job runs against: the is_probable_pdf check, the
preflight sampling outcome, the opaque docling conversion outcome, and the
exit code a PyMuPDF-engine conversion would produce. -/
structure JobWorld where
  probable_pdf : Bool
  sample : SampleOutcome
  outcome : DoclingOutcome
  pymupdf_exit : Int
deriving Repr

/-- Embeds one job execution of run_worker_loop together with the
LAST_JOB_PROOF slot: run_conversion dispatches on the normalized engine; only
the docling branch calls record_docling_proof (run_pymupdf_conversion never
touches the slot), so a PyMuPDF-engine job leaves the slot unchanged. Returns
the job exit code and the slot contents after the job, or `none` when
run_conversion raises a fatal configuration error. -/
def worker_job_step (config : GatesConfig) (dcfg : DoclingConfig)
    (caps : DoclingCapabilities) (torch : TorchInfo) (args : JobMsgArgs)
    (world : JobWorld) (last_job : Option JobProof) : Option (Int × Option JobProof) :=
  let engine := normalize_engine args.engine
  if engine = "docling" then
    match run_conversion_docling config dcfg caps torch args
        world.probable_pdf world.sample world.outcome with
    | none => none
    | some r => some (r.exit_code, r.proof)
  else some (world.pymupdf_exit, last_job)

/-- The combined get_worker_capabilities() payload: the docling snapshot plus
the PyMuPDF availability probe results. -/
structure WorkerCapabilities where
  docling : DoclingCapabilities
  pymupdf_available : Bool
  pymupdf4llm_available : Bool
  layout_available : Bool

/-- The capabilities event the run_worker_loop capabilities branch emits:
requestId echoed from the message, the get_worker_capabilities() snapshot, and
the current LAST_JOB_PROOF slot. -/
structure CapabilitiesEvent where
  requestId : JValue
  capabilities : WorkerCapabilities
  lastJob : Option JobProof

/-- Embeds the capabilities branch of run_worker_loop. -/
def capabilities_response (wcaps : WorkerCapabilities) (fs : List (String × JValue))
    (last_job : Option JobProof) : CapabilitiesEvent :=
  ⟨jget fs "requestId", wcaps, last_job⟩

/-! ## Theorems: gate evaluator -/

theorem evaluate_gates_aux_ok (metrics : List (String × ℚ)) (gates : List GateRule)
    (failed : List FailedGate) (evaluated : List EvaluatedGate)
    (h : evaluate_gates_aux metrics gates = .ok (failed, evaluated)) :
    (failed = [] ↔ ∀ g ∈ gates, g.enabled = true → g.severity = "FAIL" →
        compare_op (get_metric metrics g.metric) g.op g.threshold ≠ some false) ∧
    (∀ f ∈ failed, ∃ g, g ∈ gates ∧ g.enabled = true ∧ g.severity = "FAIL" ∧
        compare_op (get_metric metrics g.metric) g.op g.threshold = some false ∧
        f = failed_entry g (get_metric metrics g.metric)) := by
  induction gates generalizing failed evaluated with
  | nil =>
    simp only [evaluate_gates_aux, Except.ok.injEq, Prod.mk.injEq] at h
    obtain ⟨h1, h2⟩ := h
    subst h1
    simp
  | cons g rest ih =>
    by_cases hg : g.enabled = true
    · rw [evaluate_gates_aux, if_pos hg] at h
      cases hc : compare_op (get_metric metrics g.metric) g.op g.threshold with
      | none => rw [hc] at h; exact absurd h (by simp)
      | some passed =>
        rw [hc] at h
        cases hrest : evaluate_gates_aux metrics rest with
        | error e => rw [hrest] at h; exact absurd h (by simp)
        | ok pr =>
          obtain ⟨f0, e0⟩ := pr
          rw [hrest] at h
          simp only [Except.ok.injEq, Prod.mk.injEq] at h
          obtain ⟨h1, h2⟩ := h
          obtain ⟨ihA, ihB⟩ := ih f0 e0 hrest
          subst h1
          by_cases hcond : passed = false ∧ g.severity = "FAIL"
          · constructor
            · rw [if_pos hcond]
              simp only [List.cons_append, List.nil_append]
              constructor
              · intro habs; exact absurd habs (by simp)
              · intro hall
                exfalso
                have := hall g (by simp) hg hcond.2
                rw [hc, hcond.1] at this
                exact this rfl
            · rw [if_pos hcond]
              intro f hf
              simp only [List.cons_append, List.nil_append, List.mem_cons] at hf
              cases hf with
              | inl hfe =>
                exact ⟨g, by simp, hg, hcond.2, by rw [hc, hcond.1], hfe⟩
              | inr hf0 =>
                obtain ⟨g2, hg2mem, hrest2⟩ := ihB f hf0
                exact ⟨g2, List.mem_cons_of_mem _ hg2mem, hrest2⟩
          · constructor
            · rw [if_neg hcond]
              simp only [List.nil_append]
              rw [ihA]
              constructor
              · intro hall
                intro g2 hg2 hen2 hsev2
                rcases List.mem_cons.mp hg2 with hgg | hg2r
                · subst hgg
                  rw [hc]
                  intro heq
                  have hpf : passed = false := by simpa using heq
                  exact hcond ⟨hpf, hsev2⟩
                · exact hall g2 hg2r hen2 hsev2
              · intro hall g2 hg2 hen2 hsev2
                exact hall g2 (List.mem_cons_of_mem _ hg2) hen2 hsev2
            · rw [if_neg hcond]
              simp only [List.nil_append]
              intro f hf
              obtain ⟨g2, hg2mem, hrest2⟩ := ihB f hf
              exact ⟨g2, List.mem_cons_of_mem _ hg2mem, hrest2⟩
    · have hg' : g.enabled = false := by
        cases hen : g.enabled
        · rfl
        · exact absurd hen hg
      rw [evaluate_gates_aux, if_neg (by simp [hg'])] at h
      obtain ⟨ihA, ihB⟩ := ih failed evaluated h
      constructor
      · rw [ihA]
        constructor
        · intro hall g2 hg2 hen2 hsev2
          rcases List.mem_cons.mp hg2 with hgg | hg2r
          · subst hgg; exact absurd hen2 hg
          · exact hall g2 hg2r hen2 hsev2
        · intro hall g2 hg2 hen2 hsev2
          exact hall g2 (List.mem_cons_of_mem _ hg2) hen2 hsev2
      · intro f hf
        obtain ⟨g2, hg2mem, hrest2⟩ := ihB f hf
        exact ⟨g2, List.mem_cons_of_mem _ hg2mem, hrest2⟩

/-- C1: for every metrics map and gate config on which evaluate_gates returns
(rather than raising on a bad operator), passed = true iff no enabled
FAIL-severity rule's comparison is false, and an entry appears in failedGates
only as the record of an enabled FAIL-severity rule whose comparison is false —
in particular WARN-severity rules never appear in failedGates. -/
theorem claim_C1_gate_verdict (metrics : List (String × ℚ)) (gates : List GateRule)
    (passed : Bool) (failed : List FailedGate) (evaluated : List EvaluatedGate)
    (h : evaluate_gates metrics gates = .ok (passed, failed, evaluated)) :
    (passed = true ↔ ∀ g ∈ gates, g.enabled = true → g.severity = "FAIL" →
        compare_op (get_metric metrics g.metric) g.op g.threshold ≠ some false) ∧
    (∀ f ∈ failed, ∃ g, g ∈ gates ∧ g.enabled = true ∧ g.severity = "FAIL" ∧
        compare_op (get_metric metrics g.metric) g.op g.threshold = some false ∧
        f = failed_entry g (get_metric metrics g.metric)) := by
  unfold evaluate_gates at h
  cases haux : evaluate_gates_aux metrics gates with
  | error e => rw [haux] at h; exact absurd h (by simp)
  | ok pr =>
    obtain ⟨f0, e0⟩ := pr
    rw [haux] at h
    simp only [Except.ok.injEq, Prod.mk.injEq] at h
    obtain ⟨h1, h2, h3⟩ := h
    subst h2
    obtain ⟨auxA, auxB⟩ := evaluate_gates_aux_ok metrics gates f0 e0 haux
    refine ⟨?_, auxB⟩
    rw [← h1, ← auxA]
    simp [List.isEmpty_iff]

/-- The FAIL gate of the spec scenario: pages <= 1, enabled, severity FAIL. -/
def pages_gate : GateRule := ⟨"PAGES_MAX", true, "pages", "<=", 1, "FAIL", "too many pages"⟩

/-- Witness for C1: the spec scenario (pages gate <= 1 against pages = 2)
evaluates to a failing verdict with exactly that gate in failedGates, and the
theorem characterizes it. -/
theorem claim_C1_gate_verdict_witness :
    (evaluate_gates [("pages", 2)] [pages_gate]
       = .ok (false, [failed_entry pages_gate 2], [evaluated_entry pages_gate 2 false])) ∧
    ((false = true ↔ ∀ g ∈ [pages_gate], g.enabled = true → g.severity = "FAIL" →
        compare_op (get_metric [("pages", 2)] g.metric) g.op g.threshold ≠ some false) ∧
     (∀ f ∈ [failed_entry pages_gate 2], ∃ g, g ∈ [pages_gate] ∧ g.enabled = true ∧
        g.severity = "FAIL" ∧
        compare_op (get_metric [("pages", 2)] g.metric) g.op g.threshold = some false ∧
        f = failed_entry g (get_metric [("pages", 2)] g.metric))) :=
  ⟨rfl,
   claim_C1_gate_verdict [("pages", 2)] [pages_gate] false
     [failed_entry pages_gate 2] [evaluated_entry pages_gate 2 false] rfl⟩

theorem compare_op_unsupported (actual expected : ℚ) (op : String)
    (hop : op ∉ [">", ">=", "<", "<=", "==", "!="]) :
    compare_op actual op expected = none := by
  simp only [List.mem_cons, List.mem_singleton, not_or] at hop
  obtain ⟨h1, h2, h3, h4, h5, h6⟩ := hop
  simp [compare_op, h1, h2, h3, h4, h5, h6]

theorem evaluate_gates_aux_unsupported (metrics : List (String × ℚ))
    (gates : List GateRule) (g : GateRule) (hmem : g ∈ gates) (hen : g.enabled = true)
    (hcm : compare_op (get_metric metrics g.metric) g.op g.threshold = none) :
    ∀ pr, evaluate_gates_aux metrics gates ≠ .ok pr := by
  induction gates with
  | nil => cases hmem
  | cons hd rest ih =>
    intro pr
    rcases List.mem_cons.mp hmem with hgg | hmem'
    · subst hgg
      rw [evaluate_gates_aux, if_pos hen, hcm]
      simp
    · by_cases hhd : hd.enabled = true
      · rw [evaluate_gates_aux, if_pos hhd]
        cases hc : compare_op (get_metric metrics hd.metric) hd.op hd.threshold with
        | none => simp
        | some p =>
          cases hrest : evaluate_gates_aux metrics rest with
          | error e => simp
          | ok pr0 => exact absurd hrest (ih hmem' pr0)
      · rw [evaluate_gates_aux, if_neg hhd]
        exact ih hmem' pr

/-- C5: an enabled rule whose comparison operator is not one of the six
supported strings makes the whole gate evaluation raise (the embedded
evaluation never returns an ok verdict), rather than skipping the rule or
producing a soft failure. -/
theorem claim_C5_unsupported_op_raises (metrics : List (String × ℚ))
    (gates : List GateRule) (g : GateRule) (hmem : g ∈ gates) (hen : g.enabled = true)
    (hop : g.op ∉ [">", ">=", "<", "<=", "==", "!="]) :
    ∀ r, evaluate_gates metrics gates ≠ .ok r := by
  intro r
  unfold evaluate_gates
  cases haux : evaluate_gates_aux metrics gates with
  | error e => simp
  | ok pr =>
    exact absurd haux
      (evaluate_gates_aux_unsupported metrics gates g hmem hen
        (compare_op_unsupported _ _ _ hop) pr)

/-- An enabled gate with the unsupported operator string "~". -/
def bad_op_gate : GateRule := ⟨"BAD", true, "pages", "~", 1, "FAIL", ""⟩

/-- Witness for C5: with the "~"-operator gate enabled, evaluation raises the
ValueError (the embedding returns the error, never an ok verdict). -/
theorem claim_C5_unsupported_op_raises_witness :
    (bad_op_gate ∈ [bad_op_gate] ∧ bad_op_gate.enabled = true ∧
       bad_op_gate.op ∉ [">", ">=", "<", "<=", "==", "!="] ∧
       evaluate_gates [] [bad_op_gate] = .error "Unsupported gate op: ~") ∧
    ∀ r, evaluate_gates [] [bad_op_gate] ≠ .ok r :=
  ⟨⟨by decide, by decide, by decide, rfl⟩,
   claim_C5_unsupported_op_raises [] [bad_op_gate] bad_op_gate
     (by decide) (by decide) (by decide)⟩

/-! ## Theorems: settings resolver -/

theorem select_accelerator_device_sound (torch : TorchInfo) (requested : String) :
    (select_accelerator torch requested).effective_device = "cpu" ∨
    ((select_accelerator torch requested).effective_device = "cuda" ∧
      torch.cuda_available = true) := by
  unfold select_accelerator
  by_cases h1 : normalize_device (some requested) = "cuda"
  · by_cases h2 : torch.torch_available = true ∧ torch.cuda_available = true
    · right
      constructor
      · simp [h1, h2]
      · exact h2.2
    · left; simp [h1, h2]
  · by_cases h3 : normalize_device (some requested) = "cpu"
    · left; simp [h1, h3]
    · cases h4 : torch.cuda_available
      · left; simp [h1, h3, h4]
      · right
        constructor
        · simp [h1, h3, h4]
        · rfl

theorem resolve_table_structure_mode_cases (mode : String) :
    resolve_table_structure_mode mode = "fast" ∨
    resolve_table_structure_mode mode = "accurate" := by
  unfold resolve_table_structure_mode
  by_cases h : py_strip (py_lower mode) = "fast" ∨ py_strip (py_lower mode) = "accurate"
  · rw [if_pos h]; exact h
  · rw [if_neg h]; left; rfl

theorem pick_backend_mem (available : List String) (requested : String)
    (hb : ∀ b ∈ available, b ∈ pdf_backend_fallback_order) (hne : ¬ available.isEmpty) :
    (if ¬ available.isEmpty ∧ requested ∉ available then
        (pdf_backend_fallback_order.find? (fun b => available.contains b)).getD requested
      else requested) ∈ available := by
  by_cases hreq : requested ∈ available
  · rw [if_neg (by simp [hreq])]
    exact hreq
  · rw [if_pos ⟨hne, hreq⟩]
    obtain ⟨a, ha⟩ := List.exists_mem_of_ne_nil available (by simpa [List.isEmpty_iff] using hne)
    have hfind : (pdf_backend_fallback_order.find? (fun b => available.contains b)).isSome := by
      rw [List.find?_isSome]
      exact ⟨a, hb a ha, by simpa [List.contains, List.elem_iff] using ha⟩
    obtain ⟨c, hc⟩ := Option.isSome_iff_exists.mp hfind
    have hcmem : available.contains c = true := List.find?_some hc
    rw [hc, Option.getD_some]
    simpa [List.contains, List.elem_iff] using hcmem

theorem pick_table_mode_sound (available : List String) (requested : String)
    (hm : ∀ m ∈ available, m = "fast" ∨ m = "accurate")
    (hreqv : requested = "fast" ∨ requested = "accurate") (hne : ¬ available.isEmpty) :
    (if ¬ available.isEmpty ∧ requested ∉ available then
        (if "fast" ∈ available then "fast" else requested)
      else requested) ∈ available ∨
    (if ¬ available.isEmpty ∧ requested ∉ available then
        (if "fast" ∈ available then "fast" else requested)
      else requested) = "fast" := by
  by_cases hreq : requested ∈ available
  · rw [if_neg (by simp [hreq])]
    exact Or.inl hreq
  · rw [if_pos ⟨hne, hreq⟩]
    by_cases hfast : "fast" ∈ available
    · rw [if_pos hfast]
      exact Or.inl hfast
    · rw [if_neg hfast]
      cases hreqv with
      | inl hf => exact Or.inr hf
      | inr hacc =>
        exfalso
        obtain ⟨a, ha⟩ :=
          List.exists_mem_of_ne_nil available (by simpa [List.isEmpty_iff] using hne)
        cases hm a ha with
        | inl haf => exact hfast (haf ▸ ha)
        | inr haa => exact hreq (by rw [hacc, ← haa]; exact ha)

/-- C3: every effective field of a resolved DoclingSettings either lies in the
set the capability snapshot reported available (when that set is non-empty) or
is the documented default fallback: the effective PDF backend is always taken
from a non-empty reported backend set, the effective table mode is reported
available or is the documented "fast" default, the cell-matching flag is kept
only when the probed option fields are unprobed or contain do_cell_matching,
and the effective device is "cuda" only when CUDA is actually available, else
the "cpu" default. The two subset hypotheses state what the Capability Prober
guarantees about its snapshot: backends come from the prober's fixed
backend_checks list and table modes are the lowercased TableFormerMode member
names. -/
theorem claim_C3_effective_within_capabilities (dcfg : DoclingConfig)
    (caps : DoclingCapabilities) (torch : TorchInfo) (po dov : Option String)
    (s : DoclingSettings)
    (hres : resolve_docling_settings dcfg caps torch po dov = some s)
    (hb : ∀ b ∈ caps.pdfBackends, b ∈ pdf_backend_fallback_order)
    (hm : ∀ m ∈ caps.tableModes, m = "fast" ∨ m = "accurate") :
    (¬ caps.pdfBackends.isEmpty → s.pdf_backend ∈ caps.pdfBackends) ∧
    (¬ caps.tableModes.isEmpty →
       s.table_structure_mode ∈ caps.tableModes ∨ s.table_structure_mode = "fast") ∧
    (s.do_cell_matching ≠ none →
       caps.tableStructureOptionsFields.isEmpty = true ∨
       "do_cell_matching" ∈ caps.tableStructureOptionsFields) ∧
    (s.accelerator.effective_device = "cpu" ∨
       (s.accelerator.effective_device = "cuda" ∧ torch.cuda_available = true)) := by
  unfold resolve_docling_settings at hres
  cases hp : resolve_profile_config dcfg po with
  | none => rw [hp] at hres; exact absurd hres (by simp)
  | some pr =>
    obtain ⟨profile, profile_cfg⟩ := pr
    rw [hp] at hres
    simp only [Option.some.injEq] at hres
    subst hres
    refine ⟨?_, ?_, ?_, ?_⟩
    · intro hne
      exact pick_backend_mem caps.pdfBackends (profile_cfg.pdfBackend.getD "dlparse_v2") hb hne
    · intro hne
      exact pick_table_mode_sound caps.tableModes
        (resolve_table_structure_mode (profile_cfg.tableStructureMode.getD "fast")) hm
        (resolve_table_structure_mode_cases (profile_cfg.tableStructureMode.getD "fast")) hne
    · intro hcm
      by_cases hdrop : profile_cfg.doCellMatching ≠ none ∧
          ¬ caps.tableStructureOptionsFields.isEmpty ∧
          "do_cell_matching" ∉ caps.tableStructureOptionsFields
      · exact absurd (by simp [hdrop]) hcm
      · by_cases hemp : caps.tableStructureOptionsFields.isEmpty = true
        · exact Or.inl hemp
        · by_cases hreqn : profile_cfg.doCellMatching = none
          · exact absurd (by simp [hreqn]) hcm
          · refine Or.inr ?_
            by_cases hmem : "do_cell_matching" ∈ caps.tableStructureOptionsFields
            · exact hmem
            · exact absurd ⟨hreqn, hemp, hmem⟩ hdrop
    · exact select_accelerator_device_sound torch _

/-- A torch probe result with no CUDA hardware visible. -/
def torch_no_cuda : TorchInfo := ⟨false, none, none, false⟩

/-- A minimal profile config: all keys absent / defaulted. -/
def profile_cfg_min : ProfileCfg := ⟨none, none, none, false, false, 0⟩

/-- A minimal docling config with one profile "p" and preflight disabled. -/
def dcfg_min : DoclingConfig :=
  ⟨[("p", profile_cfg_min)], some "p", none, none, ⟨false, 0, 0, 0⟩⟩

/-- An empty capability snapshot (probes all failed / unprobed). -/
def caps_empty : DoclingCapabilities := ⟨"UNKNOWN", [], [], [], none, none, none, none⟩

/-- A populated profile config requesting dlparse_v4 / accurate / cell matching. -/
def profile_cfg_full : ProfileCfg := ⟨some "dlparse_v4", some "accurate", some true, true, true, 300⟩

/-- A docling config with one populated profile and an auto device default. -/
def dcfg_full : DoclingConfig :=
  ⟨[("digital", profile_cfg_full)], some "digital", none, some "auto", ⟨true, 3, 50, 10⟩⟩

/-- A capability snapshot reporting dlparse_v2 only, both table modes, and the
do_cell_matching option field. -/
def caps_full : DoclingCapabilities :=
  ⟨"2.0.0", ["dlparse_v2"], ["fast", "accurate"], ["mode", "do_cell_matching"],
   some false, none, none, none⟩

/-- A torch probe result with torch installed but no CUDA. -/
def torch_cpu_only : TorchInfo := ⟨true, some "2.1", none, false⟩

/-- The settings dcfg_min resolves to when "cuda" is requested with no CUDA
hardware present. -/
def cuda_fallback_settings : DoclingSettings :=
  ⟨"p", "dlparse_v2", false, false, "fast", 0,
   ⟨"cuda", "cpu", false, some "CUDA_NOT_AVAILABLE", none, none⟩, none,
   ⟨"p", "dlparse_v2", "fast", none⟩,
   ⟨"UNKNOWN", "dlparse_v2", "fast", none, "cpu", []⟩,
   [], caps_empty⟩

/-- C2 counterexample: with deviceOverride "cuda" and no CUDA hardware, the
resolution succeeds and downgrades to CPU, but no HARDWARE_NOT_AVAILABLE code
is recorded in the resolution's fallback reasons — the code records the reason
as CUDA_NOT_AVAILABLE, and only on the accelerator selection's reason field. -/
theorem claim_C2_counterexample :
    (resolve_docling_settings dcfg_min caps_empty torch_no_cuda none (some "cuda")).map
        (fun s => s.fallback_reasons.contains "HARDWARE_NOT_AVAILABLE") = some false ∧
    (resolve_docling_settings dcfg_min caps_empty torch_no_cuda none (some "cuda")).map
        (fun s => s.fallback_reasons.isEmpty) = some true ∧
    (resolve_docling_settings dcfg_min caps_empty torch_no_cuda none (some "cuda")).map
        (fun s => s.accelerator.reason) = some (some "CUDA_NOT_AVAILABLE") :=
  ⟨rfl, rfl, rfl⟩

/-- C2 (amended): when the requested device is "cuda" and no CUDA hardware is
available, the effective device is "cpu" and the reason code
CUDA_NOT_AVAILABLE is recorded on the accelerator selection's reason field
(not in the fallbackReasons list), and resolution success never depends on the
accelerator: it succeeds exactly when profile resolution succeeds. -/
theorem claim_C2_cuda_fallback_amended (dcfg : DoclingConfig)
    (caps : DoclingCapabilities) (torch : TorchInfo) (po dov : Option String)
    (s : DoclingSettings)
    (hres : resolve_docling_settings dcfg caps torch po dov = some s)
    (hreq : s.accelerator.requested_device = "cuda")
    (hcuda : torch.cuda_available = false) :
    s.accelerator.effective_device = "cpu" ∧
    s.accelerator.reason = some "CUDA_NOT_AVAILABLE" ∧
    (∀ (dcfg2 : DoclingConfig) (caps2 : DoclingCapabilities) (torch2 : TorchInfo)
       (po2 dov2 : Option String),
       (resolve_docling_settings dcfg2 caps2 torch2 po2 dov2).isSome
         = (resolve_profile_config dcfg2 po2).isSome) := by
  unfold resolve_docling_settings at hres
  cases hp : resolve_profile_config dcfg po with
  | none => rw [hp] at hres; exact absurd hres (by simp)
  | some pr =>
    obtain ⟨profile, profile_cfg⟩ := pr
    rw [hp] at hres
    simp only [Option.some.injEq] at hres
    subst hres
    have hnorm : normalize_device (some (resolve_requested_device dcfg dov)) = "cuda" := by
      simpa [select_accelerator] using hreq
    refine ⟨?_, ?_, ?_⟩
    · simp [select_accelerator, hnorm, hcuda]
    · simp [select_accelerator, hnorm, hcuda]
    · intro dcfg2 caps2 torch2 po2 dov2
      unfold resolve_docling_settings
      cases hp2 : resolve_profile_config dcfg2 po2 with
      | none => simp
      | some pr2 => obtain ⟨pf2, pc2⟩ := pr2; simp

/-- Witness for C2 (amended): the concrete cuda-override resolution against
absent hardware hits all three conclusions. -/
theorem claim_C2_cuda_fallback_amended_witness :
    (resolve_docling_settings dcfg_min caps_empty torch_no_cuda none (some "cuda")
        = some cuda_fallback_settings ∧
     cuda_fallback_settings.accelerator.requested_device = "cuda" ∧
     torch_no_cuda.cuda_available = false) ∧
    (cuda_fallback_settings.accelerator.effective_device = "cpu" ∧
     cuda_fallback_settings.accelerator.reason = some "CUDA_NOT_AVAILABLE" ∧
     (∀ (dcfg2 : DoclingConfig) (caps2 : DoclingCapabilities) (torch2 : TorchInfo)
        (po2 dov2 : Option String),
        (resolve_docling_settings dcfg2 caps2 torch2 po2 dov2).isSome
          = (resolve_profile_config dcfg2 po2).isSome)) :=
  ⟨⟨rfl, rfl, rfl⟩,
   claim_C2_cuda_fallback_amended dcfg_min caps_empty torch_no_cuda none (some "cuda")
     cuda_fallback_settings rfl rfl rfl⟩

/-- The settings dcfg_full resolves to against caps_full with CPU-only torch. -/
def resolved_full_settings : DoclingSettings :=
  ⟨"digital", "dlparse_v2", true, true, "accurate", 300,
   ⟨"auto", "cpu", false, none, some "2.1", none⟩, some true,
   ⟨"digital", "dlparse_v4", "accurate", some true⟩,
   ⟨"2.0.0", "dlparse_v2", "accurate", some true, "cpu",
    ["PDF_BACKEND_FALLBACK:dlparse_v4->dlparse_v2"]⟩,
   ["PDF_BACKEND_FALLBACK:dlparse_v4->dlparse_v2"], caps_full⟩

/-- Witness for C3: a resolution whose requested backend is unavailable falls
back inside the reported backend set, keeps the reported table mode and cell
matching flag, and lands on the cpu device. -/
theorem claim_C3_effective_within_capabilities_witness :
    (resolve_docling_settings dcfg_full caps_full torch_cpu_only none none
        = some resolved_full_settings ∧
     (∀ b ∈ caps_full.pdfBackends, b ∈ pdf_backend_fallback_order) ∧
     (∀ m ∈ caps_full.tableModes, m = "fast" ∨ m = "accurate")) ∧
    ((¬ caps_full.pdfBackends.isEmpty →
        resolved_full_settings.pdf_backend ∈ caps_full.pdfBackends) ∧
     (¬ caps_full.tableModes.isEmpty →
        resolved_full_settings.table_structure_mode ∈ caps_full.tableModes ∨
        resolved_full_settings.table_structure_mode = "fast") ∧
     (resolved_full_settings.do_cell_matching ≠ none →
        caps_full.tableStructureOptionsFields.isEmpty = true ∨
        "do_cell_matching" ∈ caps_full.tableStructureOptionsFields) ∧
     (resolved_full_settings.accelerator.effective_device = "cpu" ∨
        (resolved_full_settings.accelerator.effective_device = "cuda" ∧
         torch_cpu_only.cuda_available = true))) :=
  ⟨⟨rfl, by decide, by decide⟩,
   claim_C3_effective_within_capabilities dcfg_full caps_full torch_cpu_only none none
     resolved_full_settings rfl (by decide) (by decide)⟩

/-! ## Theorems: preflight gate -/

/-- C4: a disabled preflight or a non-positive configured sample page count
auto-passes with zero sampled pages and zero character counts; otherwise, when
page sampling succeeds, the check passes iff the sampled non-whitespace
character total meets the configured minimum and the average characters per
sampled page meets the configured minimum average. -/
theorem claim_C4_preflight_verdict (cfg : PreflightCfg) (sample : SampleOutcome) :
    ((cfg.enabled = false ∨ cfg.samplePages ≤ 0) →
       run_pdf_preflight cfg sample = ⟨true, 0, 0, 0, none⟩) ∧
    (∀ (text_chars sampled : Nat), cfg.enabled = true → 0 < cfg.samplePages →
       sample = .ok text_chars sampled →
       ((run_pdf_preflight cfg sample).passed = true ↔
         (cfg.minTextChars ≤ (text_chars : Int) ∧
          cfg.minTextCharsPerPageAvg ≤
            (if 0 < sampled then (text_chars : ℚ) / (sampled : ℚ) else 0)))) := by
  constructor
  · intro h
    cases h with
    | inl hdis => simp [run_pdf_preflight, hdis]
    | inr hsp =>
      cases hen : cfg.enabled with
      | false => simp [run_pdf_preflight, hen]
      | true => simp [run_pdf_preflight, hen, hsp]
  · intro text_chars sampled hen hsp hs
    subst hs
    rw [run_pdf_preflight, if_neg (by simp [hen]), if_neg (by simp; omega)]
    simp

/-- Witness for C4: a disabled config auto-passes, and an enabled sampling run
with 10 chars over 2 pages is characterized by the two minimum checks. -/
theorem claim_C4_preflight_verdict_witness :
    ((⟨false, 5, 100, 100⟩ : PreflightCfg).enabled = false ∧
     run_pdf_preflight ⟨false, 5, 100, 100⟩ (.ok 0 0) = ⟨true, 0, 0, 0, none⟩) ∧
    ((⟨true, 2, 3, 0⟩ : PreflightCfg).enabled = true ∧ (0:Int) < 2 ∧
     ((run_pdf_preflight ⟨true, 2, 3, 0⟩ (.ok 10 2)).passed = true ↔
       ((3:Int) ≤ ((10:Nat) : Int) ∧
        (0:ℚ) ≤ (if 0 < (2:Nat) then (((10:Nat)) : ℚ) / (((2:Nat)) : ℚ) else 0)))) :=
  ⟨⟨rfl, (claim_C4_preflight_verdict ⟨false, 5, 100, 100⟩ (.ok 0 0)).1 (Or.inl rfl)⟩,
   ⟨rfl, by decide,
    (claim_C4_preflight_verdict ⟨true, 2, 3, 0⟩ (.ok 10 2)).2 10 2 rfl (by decide) rfl⟩⟩

/-! ## Theorems: converter cache -/

theorem string_append_cancel_mid (A B d1 d2 : String)
    (h : A ++ d1 ++ B = A ++ d2 ++ B) : d1 = d2 := by
  have hd : (A ++ d1 ++ B).data = (A ++ d2 ++ B).data := congrArg String.data h
  simp only [String.data_append, List.append_assoc] at hd
  have h1 := List.append_cancel_left hd
  have h2 := List.append_cancel_right h1
  cases d1; cases d2; exact congrArg String.mk h2

theorem run_converter_calls_all_hits (calls : List DoclingSettings)
    (s : DoclingSettings) (c : Nat) :
    ∀ st : ConverterCacheState,
    py_dict_get st.cache (build_converter_cache_key s) = some c →
    (∀ t ∈ calls, build_converter_cache_key t = build_converter_cache_key s) →
    run_converter_calls calls st
      = (List.replicate calls.length (c, true),
         ⟨st.cache, st.builds, st.hits + calls.length⟩) := by
  induction calls with
  | nil =>
    intro st hc hall
    simp [run_converter_calls]
  | cons t rest ih =>
    intro st hc hall
    have hkt := hall t (by simp)
    have hstep : get_cached_converter t st = ((c, true), ⟨st.cache, st.builds, st.hits + 1⟩) := by
      unfold get_cached_converter
      rw [hkt, hc]
    rw [run_converter_calls, hstep]
    dsimp only
    rw [ih ⟨st.cache, st.builds, st.hits + 1⟩ hc
        (fun t2 ht2 => hall t2 (List.mem_cons_of_mem _ ht2))]
    simp only [List.length_cons, List.replicate_succ]
    have harith : st.hits + 1 + rest.length = st.hits + (rest.length + 1) := by omega
    simp [harith]

/-- C6: calls of get_cached_converter whose settings agree on every effective
field (hence share a cache key) construct the underlying engine at most once:
starting from an empty cache, the first call builds (wasCached = false) and
every later call returns the same cached instance with wasCached = true, the
build counter ending at 1; and two settings that agree on all other effective
fields but differ in effective device have different cache keys. -/
theorem claim_C6_converter_cache (s : DoclingSettings) (rest : List DoclingSettings)
    (hall : ∀ t ∈ rest, build_converter_cache_key t = build_converter_cache_key s) :
    (run_converter_calls (s :: rest) empty_converter_cache
       = ((0, false) :: List.replicate rest.length (0, true),
          ⟨[(build_converter_cache_key s, 0)], 1, rest.length⟩)) ∧
    (∀ s1 s2 : DoclingSettings, s1.profile = s2.profile →
       s1.pdf_backend = s2.pdf_backend → s1.do_ocr = s2.do_ocr →
       s1.do_table_structure = s2.do_table_structure →
       s1.table_structure_mode = s2.table_structure_mode →
       s1.document_timeout_sec = s2.document_timeout_sec →
       s1.do_cell_matching = s2.do_cell_matching →
       s1.accelerator.effective_device ≠ s2.accelerator.effective_device →
       build_converter_cache_key s1 ≠ build_converter_cache_key s2) := by
  constructor
  · have hstep0 : get_cached_converter s empty_converter_cache
        = ((0, false), ⟨[(build_converter_cache_key s, 0)], 1, 0⟩) := by
      unfold get_cached_converter empty_converter_cache
      simp [py_dict_get]
    rw [run_converter_calls, hstep0]
    dsimp only
    rw [run_converter_calls_all_hits rest s 0
        ⟨[(build_converter_cache_key s, 0)], 1, 0⟩ (by simp [py_dict_get]) hall]
    simp
  · intro s1 s2 hp hb ho ht hm htime hcm hdev hkey
    apply hdev
    unfold build_converter_cache_key at hkey
    rw [hp, hb, ho, ht, hm, htime, hcm] at hkey
    have hkey2 :
        (s2.profile ++ "|" ++ s2.pdf_backend ++ "|" ++ py_bool_str s2.do_ocr ++ "|"
          ++ py_bool_str s2.do_table_structure ++ "|" ++ s2.table_structure_mode ++ "|"
          ++ toString s2.document_timeout_sec ++ "|")
          ++ s1.accelerator.effective_device
          ++ ("|" ++ py_opt_bool_str s2.do_cell_matching)
        = (s2.profile ++ "|" ++ s2.pdf_backend ++ "|" ++ py_bool_str s2.do_ocr ++ "|"
          ++ py_bool_str s2.do_table_structure ++ "|" ++ s2.table_structure_mode ++ "|"
          ++ toString s2.document_timeout_sec ++ "|")
          ++ s2.accelerator.effective_device
          ++ ("|" ++ py_opt_bool_str s2.do_cell_matching) := by
      apply String.ext
      have := congrArg String.data hkey
      simp only [String.data_append, List.append_assoc] at this ⊢
      exact this
    exact string_append_cancel_mid _ _ _ _ hkey2

/-- Settings identical to cuda_fallback_settings on all effective cache-key
fields but with different cosmetic request metadata (already resolved away). -/
def cuda_fallback_settings_variant : DoclingSettings :=
  ⟨"p", "dlparse_v2", false, false, "fast", 0,
   ⟨"cuda", "cpu", false, some "CUDA_NOT_AVAILABLE", none, none⟩, none,
   ⟨"p", "pypdfium2", "accurate", some false⟩,
   ⟨"9.9.9", "dlparse_v2", "fast", none, "cpu", ["TABLE_MODE_FALLBACK:accurate->fast"]⟩,
   ["TABLE_MODE_FALLBACK:accurate->fast"], caps_full⟩

/-- Settings identical to cuda_fallback_settings except for the effective
device, which is cuda instead of cpu. -/
def cuda_device_settings : DoclingSettings :=
  ⟨"p", "dlparse_v2", false, false, "fast", 0,
   ⟨"cuda", "cuda", true, none, none, none⟩, none,
   ⟨"p", "dlparse_v2", "fast", none⟩,
   ⟨"UNKNOWN", "dlparse_v2", "fast", none, "cuda", []⟩,
   [], caps_empty⟩

/-- Witness for C6: two same-effective-settings calls from the empty cache
yield one build then one hit returning the same instance, and the cpu/cuda
variants get different keys. -/
theorem claim_C6_converter_cache_witness :
    ((∀ t ∈ [cuda_fallback_settings_variant],
        build_converter_cache_key t = build_converter_cache_key cuda_fallback_settings) ∧
     run_converter_calls [cuda_fallback_settings, cuda_fallback_settings_variant]
         empty_converter_cache
       = ((0, false) :: List.replicate 1 (0, true),
          ⟨[(build_converter_cache_key cuda_fallback_settings, 0)], 1, 1⟩)) ∧
    build_converter_cache_key cuda_fallback_settings
      ≠ build_converter_cache_key cuda_device_settings :=
  ⟨⟨by decide,
    (claim_C6_converter_cache cuda_fallback_settings [cuda_fallback_settings_variant]
        (by decide)).1⟩,
   (claim_C6_converter_cache cuda_fallback_settings [] (by simp)).2
     cuda_fallback_settings cuda_device_settings rfl rfl rfl rfl rfl rfl rfl (by decide)⟩

/-! ## Theorems: exception handling and log tail clamping -/

theorem drop_to_fit_suffix (cs : List Char) (n : Nat) : drop_to_fit cs n <:+ cs := by
  induction cs with
  | nil => simp [drop_to_fit]
  | cons c rest ih =>
    rw [drop_to_fit]
    split
    · exact List.suffix_refl _
    · exact ih.trans (List.suffix_cons c rest)

theorem drop_to_fit_size (cs : List Char) (n : Nat) : utf8_len (drop_to_fit cs n) ≤ n := by
  induction cs with
  | nil => simp [drop_to_fit, utf8_len]
  | cons c rest ih =>
    rw [drop_to_fit]
    split
    · assumption
    · exact ih

theorem clamp_tail_suffix (text : String) (kb : Int) :
    (clamp_tail text kb).data <:+ text.data := by
  unfold clamp_tail
  split
  · exact List.nil_suffix
  · split
    · exact List.suffix_refl _
    · exact drop_to_fit_suffix text.data (kb.toNat * 1024)

theorem clamp_tail_size (text : String) (kb : Int) :
    utf8_len (clamp_tail text kb).data ≤ kb.toNat * 1024 := by
  unfold clamp_tail
  split
  · simp [utf8_len]
  · split
    · assumption
    · exact drop_to_fit_size text.data (kb.toNat * 1024)

/-- C8: when the conversion phase raises, run_conversion catches the exception
and returns exit code 1 with status FAILED and failure reason WORKER_EXCEPTION,
writes the metadata record before returning, and attaches a stderr tail that is
a character suffix of the error text (truncated from the front, hence valid
UTF-8) whose encoded size is at most the configured kilobyte budget. The
preflight hypothesis states that the job actually reached the conversion phase
(a preflight rejection returns before converting). -/
theorem claim_C8_worker_exception (config : GatesConfig) (dcfg : DoclingConfig)
    (caps : DoclingCapabilities) (torch : TorchInfo) (args : JobMsgArgs)
    (probable_pdf : Bool) (sample : SampleOutcome) (err : String) (r : ConvRun)
    (hpre : (py_endswith (py_lower args.input) ".pdf" && probable_pdf) = false ∨
            (run_pdf_preflight dcfg.preflightPdfText sample).passed = true)
    (hrun : run_conversion_docling config dcfg caps torch args probable_pdf sample
        (.raised err) = some r) :
    r.exit_code = 1 ∧ r.status = "FAILED" ∧
    r.failure = some ("WORKER_EXCEPTION", err) ∧ r.meta_written = true ∧
    r.stderr_tail.data <:+ err.data ∧
    utf8_len r.stderr_tail.data ≤ config.stderrTailKb.toNat * 1024 := by
  unfold run_conversion_docling at hrun
  cases hp : resolve_docling_settings dcfg caps torch args.profile args.device_override with
  | none => rw [hp] at hrun; exact absurd hrun (by simp)
  | some settings =>
    rw [hp] at hrun
    have hcond : ((py_endswith (py_lower args.input) ".pdf" && probable_pdf)
        && !(run_pdf_preflight dcfg.preflightPdfText sample).passed) = false := by
      cases hpre with
      | inl h => rw [h]; rfl
      | inr h => rw [h]; simp
    simp only [hcond, Bool.false_eq_true, if_false, Option.some.injEq] at hrun
    subst hrun
    exact ⟨rfl, rfl, rfl, rfl, clamp_tail_suffix err config.stderrTailKb,
           clamp_tail_size err config.stderrTailKb⟩

/-- A gate config with no gates, no page limit and a 1 KB stderr budget. -/
def gates_config_min : GatesConfig := ⟨[], 0, 1⟩

/-- A non-PDF job request with no overrides. -/
def args_doc_bin : JobMsgArgs := ⟨"doc.bin", "d1", "/data", none, none, none, none⟩

/-- The proof slot contents dcfg_min-resolution records for document d1. -/
def proof_d1 : JobProof :=
  ⟨"d1", ⟨"p", "dlparse_v2", "fast", none⟩,
   ⟨"UNKNOWN", "dlparse_v2", "fast", none, "cpu", []⟩, []⟩

/-- The run record of the concrete raised-exception job. -/
def failed_run_d1 : ConvRun :=
  ⟨1, "FAILED", "FAILED", some ("WORKER_EXCEPTION", "boom"), "boom",
   none, true, false, some proof_d1⟩

/-- Witness for C8: a conversion raising "boom" against a 1 KB budget yields
exit 1, FAILED, WORKER_EXCEPTION, a written meta record, and the full "boom"
text as the (fitting) stderr tail. -/
theorem claim_C8_worker_exception_witness :
    (((py_endswith (py_lower args_doc_bin.input) ".pdf" && false) = false ∨
       (run_pdf_preflight dcfg_min.preflightPdfText (.ok 0 0)).passed = true) ∧
     run_conversion_docling gates_config_min dcfg_min caps_empty torch_no_cuda
       args_doc_bin false (.ok 0 0) (.raised "boom") = some failed_run_d1) ∧
    (failed_run_d1.exit_code = 1 ∧ failed_run_d1.status = "FAILED" ∧
     failed_run_d1.failure = some ("WORKER_EXCEPTION", "boom") ∧
     failed_run_d1.meta_written = true ∧
     failed_run_d1.stderr_tail.data <:+ "boom".data ∧
     utf8_len failed_run_d1.stderr_tail.data ≤ gates_config_min.stderrTailKb.toNat * 1024) :=
  ⟨⟨Or.inl (by rfl), rfl⟩,
   claim_C8_worker_exception gates_config_min dcfg_min caps_empty torch_no_cuda
     args_doc_bin false (.ok 0 0) "boom" failed_run_d1 (Or.inl (by rfl)) rfl⟩

/-! ## Theorems: last-job proof slot, engine normalization, worker loop -/

theorem run_conversion_docling_proof_field (config : GatesConfig) (dcfg : DoclingConfig)
    (caps : DoclingCapabilities) (torch : TorchInfo) (args : JobMsgArgs)
    (probable_pdf : Bool) (sample : SampleOutcome) (outcome : DoclingOutcome)
    (r : ConvRun) (settings : DoclingSettings)
    (hres : resolve_docling_settings dcfg caps torch args.profile args.device_override
        = some settings)
    (hrun : run_conversion_docling config dcfg caps torch args probable_pdf sample outcome
        = some r) :
    r.proof = some ⟨args.doc_id, settings.requested_settings, settings.effective_settings,
                    settings.fallback_reasons⟩ := by
  unfold run_conversion_docling at hrun
  rw [hres] at hrun
  dsimp only at hrun
  split at hrun
  · simp only [Option.some.injEq] at hrun
    subst hrun
    rfl
  · cases outcome with
    | raised err =>
      simp only [Option.some.injEq] at hrun
      subst hrun
      rfl
    | converted metrics =>
      dsimp only at hrun
      cases he : evaluate_gates metrics config.gates with
      | error e =>
        rw [he] at hrun
        simp only [Option.some.injEq] at hrun
        subst hrun
        rfl
      | ok pr =>
        obtain ⟨p0, f0, e0⟩ := pr
        rw [he] at hrun
        simp only [Option.some.injEq] at hrun
        subst hrun
        rfl

/-- C9 (amended): a docling-engine job overwrites the last-job proof slot with
that job's document id and requested/effective settings, and a subsequent
capabilities command echoes the slot as lastJob alongside the capability
snapshot and the request id; a PyMuPDF-engine job leaves the slot unchanged
(run_pymupdf_conversion never calls record_docling_proof). -/
theorem claim_C9_last_job_proof_amended (config : GatesConfig) (dcfg : DoclingConfig)
    (caps : DoclingCapabilities) (torch : TorchInfo) (args : JobMsgArgs)
    (world : JobWorld) (last_job : Option JobProof) (code : Int)
    (proof2 : Option JobProof) (settings : DoclingSettings)
    (heng : normalize_engine args.engine = "docling")
    (hstep : worker_job_step config dcfg caps torch args world last_job
        = some (code, proof2))
    (hres : resolve_docling_settings dcfg caps torch args.profile args.device_override
        = some settings) :
    proof2 = some ⟨args.doc_id, settings.requested_settings, settings.effective_settings,
                   settings.fallback_reasons⟩ ∧
    (∀ (wcaps : WorkerCapabilities) (fs : List (String × JValue)),
       (capabilities_response wcaps fs proof2).lastJob = proof2 ∧
       (capabilities_response wcaps fs proof2).requestId = jget fs "requestId" ∧
       (capabilities_response wcaps fs proof2).capabilities = wcaps) ∧
    (∀ (args2 : JobMsgArgs) (world2 : JobWorld) (slot : Option JobProof) (res2 : Int × Option JobProof),
       normalize_engine args2.engine ≠ "docling" →
       worker_job_step config dcfg caps torch args2 world2 slot = some res2 →
       res2.2 = slot) := by
  refine ⟨?_, fun wcaps fs => ⟨rfl, rfl, rfl⟩, ?_⟩
  · unfold worker_job_step at hstep
    rw [heng, if_pos rfl] at hstep
    cases hrun : run_conversion_docling config dcfg caps torch args
        world.probable_pdf world.sample world.outcome with
    | none => rw [hrun] at hstep; exact absurd hstep (by simp)
    | some r =>
      rw [hrun] at hstep
      simp only [Option.some.injEq, Prod.mk.injEq] at hstep
      rw [← hstep.2]
      exact run_conversion_docling_proof_field config dcfg caps torch args
        world.probable_pdf world.sample world.outcome r settings hres hrun
  · intro args2 world2 slot res2 hne hstep2
    unfold worker_job_step at hstep2
    rw [if_neg hne] at hstep2
    simp only [Option.some.injEq] at hstep2
    rw [← hstep2]

/-- The settings dcfg_min resolves to with no overrides. -/
def settings_min : DoclingSettings :=
  ⟨"p", "dlparse_v2", false, false, "fast", 0,
   ⟨"auto", "cpu", false, none, none, none⟩, none,
   ⟨"p", "dlparse_v2", "fast", none⟩,
   ⟨"UNKNOWN", "dlparse_v2", "fast", none, "cpu", []⟩,
   [], caps_empty⟩

/-- A job world where conversion succeeds with empty metrics. -/
def job_world_ok : JobWorld := ⟨false, .ok 0 0, .converted [], 0⟩

/-- A pymupdf_text job for document d2. -/
def args_doc2_pym : JobMsgArgs := ⟨"doc2.bin", "d2", "/data", some "pymupdf_text", none, none, none⟩

/-- Witness for C9 (amended): the concrete docling job for d1 stores the d1
proof, and the capabilities echo returns it. -/
theorem claim_C9_last_job_proof_amended_witness :
    (normalize_engine args_doc_bin.engine = "docling" ∧
     worker_job_step gates_config_min dcfg_min caps_empty torch_no_cuda args_doc_bin
         job_world_ok none = some (0, some proof_d1) ∧
     resolve_docling_settings dcfg_min caps_empty torch_no_cuda args_doc_bin.profile
         args_doc_bin.device_override = some settings_min) ∧
    (some proof_d1
       = some ⟨args_doc_bin.doc_id, settings_min.requested_settings,
               settings_min.effective_settings, settings_min.fallback_reasons⟩ ∧
     (∀ (wcaps : WorkerCapabilities) (fs : List (String × JValue)),
        (capabilities_response wcaps fs (some proof_d1)).lastJob = some proof_d1 ∧
        (capabilities_response wcaps fs (some proof_d1)).requestId = jget fs "requestId" ∧
        (capabilities_response wcaps fs (some proof_d1)).capabilities = wcaps) ∧
     (∀ (args2 : JobMsgArgs) (world2 : JobWorld) (slot : Option JobProof)
        (res2 : Int × Option JobProof),
        normalize_engine args2.engine ≠ "docling" →
        worker_job_step gates_config_min dcfg_min caps_empty torch_no_cuda args2 world2 slot
          = some res2 →
        res2.2 = slot)) :=
  ⟨⟨rfl, rfl, rfl⟩,
   claim_C9_last_job_proof_amended gates_config_min dcfg_min caps_empty torch_no_cuda
     args_doc_bin job_world_ok none 0 (some proof_d1) settings_min rfl rfl rfl⟩

/-- C9 counterexample: a completed pymupdf_text job for d2 leaves the last-job
proof slot still holding the previous docling job's d1 proof, so the slot is
not overwritten by every completed job. -/
theorem claim_C9_counterexample :
    worker_job_step gates_config_min dcfg_min caps_empty torch_no_cuda args_doc_bin
        job_world_ok none = some (0, some proof_d1) ∧
    worker_job_step gates_config_min dcfg_min caps_empty torch_no_cuda args_doc2_pym
        job_world_ok (some proof_d1) = some (0, some proof_d1) ∧
    args_doc2_pym.doc_id = "d2" ∧ proof_d1.docId = "d1" ∧ ("d1" : String) ≠ "d2" :=
  ⟨rfl, rfl, rfl, rfl, by decide⟩

theorem run_conversion_docling_args_congr (config : GatesConfig) (dcfg : DoclingConfig)
    (caps : DoclingCapabilities) (torch : TorchInfo) (a1 a2 : JobMsgArgs)
    (h1 : a1.input = a2.input) (h2 : a1.doc_id = a2.doc_id)
    (h3 : a1.profile = a2.profile) (h4 : a1.device_override = a2.device_override)
    (pb : Bool) (sample : SampleOutcome) (outcome : DoclingOutcome) :
    run_conversion_docling config dcfg caps torch a1 pb sample outcome
      = run_conversion_docling config dcfg caps torch a2 pb sample outcome := by
  unfold run_conversion_docling
  rw [h1, h2, h3, h4]

/-- C10 (amended): an engine value that is absent, empty, or whose
stripped-lowercased form is outside {docling, pymupdf4llm, pymupdf_text}
normalizes to "docling", and the job then runs exactly as a docling-engine job
(same step result as with engine "docling") rather than being rejected.
Values that differ from a supported name only by case or surrounding
whitespace normalize to that supported name instead. -/
theorem claim_C10_engine_default (v : Option String)
    (h : v = none ∨ v = some "" ∨
         py_lower (py_strip (v.getD ""))
           ∉ (["docling", "pymupdf4llm", "pymupdf_text"] : List String)) :
    normalize_engine v = "docling" ∧
    (∀ (config : GatesConfig) (dcfg : DoclingConfig) (caps : DoclingCapabilities)
       (torch : TorchInfo) (args : JobMsgArgs) (world : JobWorld)
       (last_job : Option JobProof),
       worker_job_step config dcfg caps torch { args with engine := v } world last_job
         = worker_job_step config dcfg caps torch { args with engine := some "docling" }
             world last_job) := by
  have hnorm : normalize_engine v = "docling" := by
    rcases h with h | h | h
    · subst h; rfl
    · subst h; rfl
    · cases v with
      | none => rfl
      | some s =>
        by_cases hs : s = ""
        · subst hs; rfl
        · have hns : py_lower (py_strip s)
              ∉ (["docling", "pymupdf4llm", "pymupdf_text"] : List String) := by
            simpa using h
          have hcond : ¬ (py_lower (py_strip s) = "docling" ∨
              py_lower (py_strip s) = "pymupdf4llm" ∨
              py_lower (py_strip s) = "pymupdf_text") := by
            simpa using hns
          unfold normalize_engine
          dsimp only
          rw [if_neg hs, if_neg hcond]
  refine ⟨hnorm, ?_⟩
  intro config dcfg caps torch args world last_job
  unfold worker_job_step
  dsimp only
  rw [hnorm, show normalize_engine (some "docling") = "docling" from rfl]
  rw [run_conversion_docling_args_congr config dcfg caps torch
      { args with engine := v } { args with engine := some "docling" } rfl rfl rfl rfl
      world.probable_pdf world.sample world.outcome]

/-- Witness for C10 (amended): the unknown engine value "turbo-engine"
normalizes to docling and dispatches identically to an explicit docling job. -/
theorem claim_C10_engine_default_witness :
    (py_lower (py_strip ((some "turbo-engine" : Option String).getD ""))
       ∉ (["docling", "pymupdf4llm", "pymupdf_text"] : List String)) ∧
    normalize_engine (some "turbo-engine") = "docling" ∧
    (∀ (config : GatesConfig) (dcfg : DoclingConfig) (caps : DoclingCapabilities)
       (torch : TorchInfo) (args : JobMsgArgs) (world : JobWorld)
       (last_job : Option JobProof),
       worker_job_step config dcfg caps torch { args with engine := some "turbo-engine" }
           world last_job
         = worker_job_step config dcfg caps torch { args with engine := some "docling" }
             world last_job) :=
  ⟨by decide,
   (claim_C10_engine_default (some "turbo-engine") (Or.inr (Or.inr (by decide)))).1,
   (claim_C10_engine_default (some "turbo-engine") (Or.inr (Or.inr (by decide)))).2⟩

/-- C10 counterexample: "PYMUPDF4LLM" is outside the literal engine set, yet
it is normalized to "pymupdf4llm", not "docling" — normalize_engine lowercases
before matching, so the claim as stated fails on case-variant values. -/
theorem claim_C10_counterexample :
    ("PYMUPDF4LLM" ∉ (["docling", "pymupdf4llm", "pymupdf_text"] : List String)) ∧
    normalize_engine (some "PYMUPDF4LLM") = "pymupdf4llm" ∧
    ("pymupdf4llm" : String) ≠ "docling" :=
  ⟨by decide, rfl, by decide⟩

/-- C7 (amended): a stdin line that is blank, not valid JSON, parses to a
non-object, carries a type other than shutdown/capabilities/job, or is a job
command whose docId, input, dataDir or gates value is missing or falsy, makes
the worker loop emit no event and run no conversion, and the loop stays alive
to process the remaining lines. A job missing only jobId but carrying a truthy
docId is NOT skipped: the computed job id falls back to docId. -/
theorem claim_C7_protocol_skips (line : Option JValue) (rest : List (Option JValue))
    (h : line = none ∨
         (∃ v, line = some v ∧ ∀ fs, v ≠ JValue.obj fs) ∨
         (∃ fs, line = some (.obj fs) ∧
            jeq_str (jget fs "type") "shutdown" = false ∧
            jeq_str (jget fs "type") "capabilities" = false ∧
            jeq_str (jget fs "type") "job" = false) ∨
         (∃ fs, line = some (.obj fs) ∧ jeq_str (jget fs "type") "job" = true ∧
            (py_truthy (jget fs "docId") = false ∨ py_truthy (jget fs "input") = false ∨
             py_truthy (jget fs "dataDir") = false ∨ py_truthy (jget fs "gates") = false))) :
    process_line line = .skip ∧ run_loop (line :: rest) = run_loop rest := by
  have hskip : process_line line = .skip := by
    rcases h with h | ⟨v, hv, hno⟩ | ⟨fs, hfs, ht1, ht2, ht3⟩ | ⟨fs, hfs, htj, hmiss⟩
    · subst h; rfl
    · subst hv
      cases v with
      | null => rfl
      | bool b => rfl
      | num q => rfl
      | str s => rfl
      | arr xs => rfl
      | obj fs => exact absurd rfl (hno fs)
    · subst hfs
      unfold process_line
      dsimp only
      rw [if_neg (by simp [ht1]), if_neg (by simp [ht2]), if_pos ht3]
    · subst hfs
      have hshut : jeq_str (jget fs "type") "shutdown" = false := by
        cases hv : jget fs "type" with
        | str s =>
          rw [hv] at htj
          simp only [jeq_str, decide_eq_true_eq] at htj
          subst htj
          decide
        | null => rfl
        | bool b => rfl
        | num q => rfl
        | arr xs => rfl
        | obj fs2 => rfl
      have hcap : jeq_str (jget fs "type") "capabilities" = false := by
        cases hv : jget fs "type" with
        | str s =>
          rw [hv] at htj
          simp only [jeq_str, decide_eq_true_eq] at htj
          subst htj
          decide
        | null => rfl
        | bool b => rfl
        | num q => rfl
        | arr xs => rfl
        | obj fs2 => rfl
      unfold process_line
      dsimp only
      rw [if_neg (by simp [hshut]), if_neg (by simp [hcap]),
          if_neg (by simp [htj]), if_pos]
      rcases hmiss with hm | hm | hm | hm <;> simp [hm]
  refine ⟨hskip, ?_⟩
  rw [run_loop, hskip]

/-- A job message missing docId (a required field on its own). -/
def job_fields_no_docid : List (String × JValue) := [("type", .str "job"), ("input", .str "i")]

/-- A capabilities query line. -/
def cap_line : JValue := .obj [("type", .str "capabilities")]

/-- Witness for C7 (amended): a job line without docId is skipped with no
event, and the loop goes on to process the following capabilities line. -/
theorem claim_C7_protocol_skips_witness :
    (jeq_str (jget job_fields_no_docid "type") "job" = true ∧
     py_truthy (jget job_fields_no_docid "docId") = false) ∧
    (process_line (some (.obj job_fields_no_docid)) = .skip ∧
     run_loop [some (.obj job_fields_no_docid), some cap_line]
       = run_loop [some cap_line]) :=
  ⟨⟨rfl, rfl⟩,
   claim_C7_protocol_skips (some (.obj job_fields_no_docid)) [some cap_line]
     (Or.inr (Or.inr (Or.inr ⟨job_fields_no_docid, rfl, rfl, Or.inl rfl⟩)))⟩

/-- A job message carrying every required value except jobId. -/
def job_fields_no_jobid : List (String × JValue) :=
  [("type", .str "job"), ("docId", .str "d2"), ("input", .str "in.pdf"),
   ("dataDir", .str "/data"), ("gates", .str "g.json")]

/-- C7 counterexample: a job line missing the (per the claim, required) jobId
field is not skipped — the loop runs the conversion and emits one result event,
because the computed job id falls back to docId. -/
theorem claim_C7_counterexample :
    jget job_fields_no_jobid "jobId" = JValue.null ∧
    (run_loop [some (.obj job_fields_no_jobid)]).length = 1 :=
  ⟨rfl, rfl⟩
